import Mathlib

/-!
Shallow embedding of the `tiktok-video-comparison` sources:

* `approach-2-api-pipeline/pipeline.py`
* `approach-3-hybrid/generate_assets.py`
* `approach-3-hybrid/orchestrate.py`

Modelling conventions: Python floats over the values exercised here are
modelled as rationals; the run's output directory is a characteristic
function over a finite artifact type; remote services are explicit
parameters (status streams and outcome values), so that every definition is
executable and every property decidable on concrete inputs.
-/

namespace TiktokPipeline

/-! ## Remote job polling (pipeline.py lines 185-230, generate_assets.py lines 219-267) -/

/-- Status field of a Replicate prediction as the poll loops read it
(`prediction["status"]` in pipeline.py, `result["status"]` in
generate_assets.py).  The loops test for `"succeeded"` and `"failed"` and
keep polling on anything else; `failed` carries the `error` field of the
response, which Python's `.get` may return as `None`. -/
inductive PredictionStatus where
  | succeeded (output : String)
  | failed (err : Option String)
  | processing
deriving DecidableEq, Repr

/-- Observation of a poll loop after a bounded number of iterations: the
loop either returned its downloaded output, raised a `RuntimeError`
carrying the remote error message, or is still polling after the bound. -/
inductive PollResult where
  | downloaded (url : String)
  | generationError (msg : String)
  | polling
deriving DecidableEq, Repr

/-- Python renders `None` as the string `"None"` inside an f-string. -/
def pyOptStr (o : Option String) : String := o.getD "None"

/-- Poll loop of `ReplicateVideoProvider.generate_clip` (pipeline.py lines
205-219): `while True: await asyncio.sleep(5); ...` with no deadline and no
iteration bound in the source.  `backend i` is the status the i-th GET
returns; `fuel` bounds how many iterations we observe.  On `failed` the
loop raises `RuntimeError(f"Video generation failed: {...}")`. -/
def generateClipPoll (backend : Nat → PredictionStatus) : Nat → Nat → PollResult
  | _, 0 => .polling
  | i, fuel + 1 =>
    match backend i with
    | .succeeded out => .downloaded out
    | .failed e => .generationError ("Video generation failed: " ++ pyOptStr e)
    | .processing => generateClipPoll backend (i + 1) fuel

/-- Poll loop of `ImageGenerator._generate_replicate` (generate_assets.py
lines 242-255): identical shape, 3-second sleep, message
`f"Generation failed: {...}"`. -/
def sdxlPoll (backend : Nat → PredictionStatus) : Nat → Nat → PollResult
  | _, 0 => .polling
  | i, fuel + 1 =>
    match backend i with
    | .succeeded out => .downloaded out
    | .failed e => .generationError ("Generation failed: " ++ pyOptStr e)
    | .processing => sdxlPoll backend (i + 1) fuel

/-- Wall-clock seconds spent sleeping after `n` iterations of the
`generate_clip` poll loop (`await asyncio.sleep(5)` per iteration). -/
def generateClipElapsed (n : Nat) : Nat := 5 * n

/-- Wall-clock seconds spent sleeping after `n` iterations of the SDXL poll
loop (`await asyncio.sleep(3)` per iteration). -/
def sdxlElapsed (n : Nat) : Nat := 3 * n

theorem generateClipPoll_processing (i fuel : Nat) :
    generateClipPoll (fun _ => .processing) i fuel = .polling := by
  induction fuel generalizing i with
  | zero => rfl
  | succ n ih => simpa [generateClipPoll] using ih (i + 1)

theorem sdxlPoll_processing (i fuel : Nat) :
    sdxlPoll (fun _ => .processing) i fuel = .polling := by
  induction fuel generalizing i with
  | zero => rfl
  | succ n ih => simpa [sdxlPoll] using ih (i + 1)

/-- C1 counterexample: against a backend that never leaves the running
state, after 100 poll iterations — 500 s of wall clock, past the "few
minutes" budget the claim allows — `generate_clip`'s poll loop has not
returned and has raised nothing: it is still polling.  No `TimeoutError`
outcome exists anywhere in the loop (`PollResult` has no timeout
constructor because the source has no timeout path), so the claim that a
`TimeoutError` is raised once the budget is exceeded is false. -/
theorem c1_no_timeout_counterexample :
    generateClipPoll (fun _ => .processing) 0 100 = .polling ∧
    generateClipElapsed 100 = 500 := by
  exact ⟨generateClipPoll_processing 0 100, rfl⟩

/-- C1 amended: the poll loops have no wall-clock budget and no
`TimeoutError` path.  Against a backend that never reports a terminal
state, both loops poll forever (they are still polling after every finite
number of iterations); a loop returns only when the backend reports
`succeeded` (download) or `failed` (a `RuntimeError` carrying the remote
error message). -/
theorem c1_poll_loop_never_times_out :
    (∀ i fuel, generateClipPoll (fun _ => .processing) i fuel = .polling) ∧
    (∀ i fuel, sdxlPoll (fun _ => .processing) i fuel = .polling) ∧
    (∀ backend i fuel out, backend i = .succeeded out →
      generateClipPoll backend i (fuel + 1) = .downloaded out) ∧
    (∀ backend i fuel e, backend i = .failed e →
      generateClipPoll backend i (fuel + 1) =
        .generationError ("Video generation failed: " ++ pyOptStr e)) := by
  refine ⟨generateClipPoll_processing, sdxlPoll_processing, ?_, ?_⟩
  · intro backend i fuel out h
    simp [generateClipPoll, h]
  · intro backend i fuel e h
    simp [generateClipPoll, h]

/-- C1 amended, witnessed at concrete inputs: still polling after 7
iterations of either loop against an ever-running backend; immediate
download on a backend that reports success; a verbatim `RuntimeError`
message on a backend that reports failure. -/
theorem c1_poll_loop_never_times_out_witness :
    generateClipPoll (fun _ => .processing) 0 7 = .polling ∧
    sdxlPoll (fun _ => .processing) 0 7 = .polling ∧
    generateClipPoll (fun _ => .succeeded "u") 0 1 = .downloaded "u" ∧
    generateClipPoll (fun _ => .failed (some "boom")) 0 1 =
      .generationError "Video generation failed: boom" := by
  refine ⟨c1_poll_loop_never_times_out.1 0 7,
          c1_poll_loop_never_times_out.2.1 0 7,
          c1_poll_loop_never_times_out.2.2.1 _ 0 0 "u" rfl,
          c1_poll_loop_never_times_out.2.2.2 _ 0 0 (some "boom") rfl⟩

/-! ## Image generation capability resolution (generate_assets.py lines 195-217,
orchestrate.py lines 84-95) -/

/-- Truthiness of an `os.getenv` result: `None` and the empty string are
falsy in the `if self.provider == ... and self.replicate_token:` tests. -/
def envTruthy : Option String → Bool
  | none => false
  | some s => s ≠ ""

/-- The credential state `ImageGenerator.__init__` captures from the
environment, plus the provider name it was constructed with. -/
structure ImageGenerator where
  provider : String
  replicate_token : Option String
  openai_key : Option String
deriving DecidableEq, Repr

/-- Which concrete producer a `generate` call ran. -/
inductive ImageSource where
  | replicate
  | openai
  | placeholder
deriving DecidableEq, Repr

/-- `ImageGenerator.generate` (generate_assets.py lines 203-217): the
replicate branch runs when the provider string is `"replicate"` and the
token is truthy, the openai branch when the provider string is `"openai"`
and the key is truthy, and otherwise the local placeholder is produced.
`replicateOutcome` / `openaiOutcome` give the result of the corresponding
remote helper when it is entered: `.error msg` models the `RuntimeError` or
HTTP exception propagating out of it (no branch catches it).  The
placeholder branch is local and always succeeds. -/
def ImageGenerator.generate (g : ImageGenerator)
    (replicateOutcome openaiOutcome : Except String Unit) :
    Except String ImageSource :=
  if g.provider = "replicate" ∧ envTruthy g.replicate_token = true then
    replicateOutcome.map fun _ => ImageSource.replicate
  else if g.provider = "openai" ∧ envTruthy g.openai_key = true then
    openaiOutcome.map fun _ => ImageSource.openai
  else
    .ok .placeholder

/-- Provider string `HybridPipeline._generate_assets` passes to the asset
generator (orchestrate.py lines 90-95): `"replicate"` when the token is
set, `"placeholder"` otherwise. -/
def hybridProviderChoice (replicateToken : Option String) : String :=
  if envTruthy replicateToken = true then "replicate" else "placeholder"

/-- C5: capability resolution.  (1) When the preferred provider's
credential is absent (falsy), `generate` resolves to the local placeholder
and completes.  (2)/(3) When the replicate or openai branch is entered with
its credential present and the remote helper fails, that failure propagates
out of `generate` unchanged — the placeholder is never substituted for it.
(4) The hybrid orchestrator chooses the `"placeholder"` provider string
exactly when the replicate token is falsy, and `generate` then completes
with the placeholder. -/
theorem c5_fallback_resolution :
    (∀ (g : ImageGenerator) ro oo,
      (g.provider = "replicate" ∧ envTruthy g.replicate_token = false) ∨
      (g.provider = "openai" ∧ envTruthy g.openai_key = false) →
      g.generate ro oo = .ok .placeholder) ∧
    (∀ (g : ImageGenerator) e oo, g.provider = "replicate" →
      envTruthy g.replicate_token = true →
      g.generate (.error e) oo = .error e) ∧
    (∀ (g : ImageGenerator) ro e, g.provider = "openai" →
      envTruthy g.openai_key = true →
      g.generate ro (.error e) = .error e) ∧
    (∀ token, envTruthy token = false →
      hybridProviderChoice token = "placeholder" ∧
      ∀ ro oo, ImageGenerator.generate
        ⟨hybridProviderChoice token, token, none⟩ ro oo = .ok .placeholder) := by
  refine ⟨?_, ?_, ?_, ?_⟩
  · rintro g ro oo (⟨hp, ht⟩ | ⟨hp, ht⟩) <;>
      simp [ImageGenerator.generate, hp, ht]
  · intro g e oo hp ht
    simp [ImageGenerator.generate, hp, ht, Except.map]
  · intro g ro e hp ht
    simp [ImageGenerator.generate, hp, ht, Except.map]
  · intro token ht
    refine ⟨by simp [hybridProviderChoice, ht], ?_⟩
    intro ro oo
    simp [ImageGenerator.generate, hybridProviderChoice, ht]

/-- C5 witness: a generator preferring replicate with no token resolves to
the placeholder; one with a token set propagates a generation error; the
hybrid choice with an absent token is the placeholder provider. -/
theorem c5_fallback_resolution_witness :
    ImageGenerator.generate ⟨"replicate", none, none⟩ (.ok ()) (.ok ()) =
      .ok .placeholder ∧
    ImageGenerator.generate ⟨"replicate", some "tok", none⟩
      (.error "Generation failed: bad") (.ok ()) = .error "Generation failed: bad" ∧
    hybridProviderChoice none = "placeholder" := by
  refine ⟨c5_fallback_resolution.1 _ _ _ (Or.inl ⟨rfl, rfl⟩),
          c5_fallback_resolution.2.1 _ _ _ rfl rfl,
          (c5_fallback_resolution.2.2.2 none rfl).1⟩

/-! ## Speech synthesis and the duration probe (pipeline.py lines 306-379) -/

/-- A produced artifact (pipeline.py lines 58-65); the float duration is
modelled as a rational and the free-form metadata dict as an association
list. -/
structure GeneratedAsset where
  path : String
  asset_type : String
  duration : ℚ
  metadata : List (String × String)
deriving DecidableEq, Repr

/-- Python's `str.strip()`: drop whitespace from both ends. -/
def pyStrip (s : String) : String :=
  ⟨((s.data.dropWhile Char.isWhitespace).reverse.dropWhile
      Char.isWhitespace).reverse⟩

/-- The ffprobe duration parse both TTS providers share (pipeline.py lines
327-333 and 366-372): `float(result.stdout.strip()) if
result.stdout.strip() else 0`.  `pyFloat` stands for Python's `float()`
applied to the nonempty stripped stdout. -/
def probeDurationValue (stdout : String) (pyFloat : String → ℚ) : ℚ :=
  if pyStrip stdout = "" then 0 else pyFloat (pyStrip stdout)

/-- `EdgeTTSProvider.generate_audio` (pipeline.py lines 319-340): save the
synthesized speech, probe its duration with ffprobe, and return the asset.
`probeStdout` is the captured ffprobe stdout. -/
def EdgeTTSProvider.generate_audio (text output_path voice : String)
    (probeStdout : String) (pyFloat : String → ℚ) : GeneratedAsset :=
  { path := output_path
    asset_type := "audio"
    duration := probeDurationValue probeStdout pyFloat
    metadata := [("voice", voice), ("text_length", toString text.length)] }

/-- `OpenAITTSProvider.generate_audio` (pipeline.py lines 349-379):
`response.raise_for_status()` turns a failed HTTP call into an exception
(`httpOk = false`); otherwise the audio bytes are written and the same
ffprobe duration parse runs. -/
def OpenAITTSProvider.generate_audio (text output_path voice : String)
    (httpOk : Bool) (probeStdout : String) (pyFloat : String → ℚ) :
    Except String GeneratedAsset :=
  if httpOk then
    .ok { path := output_path
          asset_type := "audio"
          duration := probeDurationValue probeStdout pyFloat
          metadata := [("voice", voice), ("provider", "openai"),
                       ("text_length", toString text.length)] }
  else .error "HTTPStatusError"

/-- C9: when the ffprobe duration probe yields no output (blank stdout),
both TTS providers return a `GeneratedAsset` whose duration is 0 instead of
raising: the Edge provider always returns the asset, and the OpenAI
provider returns it whenever its HTTP call itself succeeded. -/
theorem c9_blank_probe_gives_zero_duration
    (text output_path voice probeStdout : String) (pyFloat : String → ℚ)
    (hblank : pyStrip probeStdout = "") :
    (EdgeTTSProvider.generate_audio text output_path voice probeStdout
        pyFloat).duration = 0 ∧
    OpenAITTSProvider.generate_audio text output_path voice true probeStdout
        pyFloat =
      .ok { path := output_path
            asset_type := "audio"
            duration := 0
            metadata := [("voice", voice), ("provider", "openai"),
                         ("text_length", toString text.length)] } := by
  constructor
  · simp [EdgeTTSProvider.generate_audio, probeDurationValue, hblank]
  · simp [OpenAITTSProvider.generate_audio, probeDurationValue, hblank]

/-- C9 witness: with an empty ffprobe stdout and an arbitrary parse
function, the Edge asset's duration evaluates to 0. -/
theorem c9_blank_probe_gives_zero_duration_witness :
    (EdgeTTSProvider.generate_audio "hi" "voiceover.mp3" "en-US-GuyNeural" ""
        (fun _ => 99)).duration = 0 :=
  (c9_blank_probe_gives_zero_duration "hi" "voiceover.mp3" "en-US-GuyNeural"
    "" (fun _ => 99) (by decide)).1

/-! ## Theme asset generation (generate_assets.py lines 29-188 and 375-475) -/

/-- `AssetConfig` (generate_assets.py lines 29-38). -/
structure AssetConfig where
  name : String
  prompt : String
  width : Nat
  height : Nat
  style_suffix : String := ""
  remove_background : Bool := false
deriving DecidableEq, Repr

/-- One value of the `THEMES` dict (generate_assets.py lines 42-179). -/
structure ThemeConfig where
  description : String
  backgrounds : List AssetConfig
  characters : List AssetConfig
  props : List AssetConfig
deriving DecidableEq, Repr

/-- The `THEMES` table (generate_assets.py lines 42-179). -/
def THEMES : List (String × ThemeConfig) :=
  [("uno-no-mercy",
    { description := "UNO No Mercy card game explainer"
      backgrounds :=
        [{ name := "bg_intro"
           prompt := "Dark dramatic background with subtle UNO card colors (red, blue, green, yellow) as accent lighting, abstract geometric shapes, cinematic mood"
           width := 1080, height := 1920 },
         { name := "bg_dramatic"
           prompt := "Intense dark background with spotlight effect, red and black color scheme, dramatic shadows, tension atmosphere"
           width := 1080, height := 1920 },
         { name := "bg_chaos"
           prompt := "Chaotic abstract background with scattered playing cards, glitch effects, neon UNO colors on dark background, motion blur"
           width := 1080, height := 1920 },
         { name := "bg_outro"
           prompt := "Ominous dark background with subtle evil red glow, vignette effect, minimal and foreboding atmosphere"
           width := 1080, height := 1920 }]
      characters :=
        [{ name := "character_neutral"
           prompt := "Cartoon-style young adult character, casual confident pose, neutral expression, colorful modern clothing, facing forward, clean lines"
           width := 512, height := 768, remove_background := true },
         { name := "character_shocked"
           prompt := "Cartoon-style young adult character, shocked surprised expression, wide eyes, hands up in disbelief, expressive pose"
           width := 512, height := 768, remove_background := true },
         { name := "character_mischievous"
           prompt := "Cartoon-style young adult character, mischievous evil grin, raised eyebrow, scheming pose, hands together like plotting"
           width := 512, height := 768, remove_background := true },
         { name := "character_serious"
           prompt := "Cartoon-style young adult character, dead serious intense expression, arms crossed, stern look, authoritative pose"
           width := 512, height := 768, remove_background := true }]
      props :=
        [{ name := "card_stack"
           prompt := "Stack of colorful UNO cards, red blue green yellow, fanned out arrangement, dramatic lighting, isolated on transparent background"
           width := 400, height := 300, remove_background := true },
         { name := "plus_ten_card"
           prompt := "Single UNO card with +10 text, dramatic glow effect, rainbow wild card colors, menacing appearance"
           width := 200, height := 300, remove_background := true }] }),
   ("financial-basics",
    { description := "Personal finance fundamentals explainer"
      backgrounds :=
        [{ name := "bg_intro"
           prompt := "Clean modern gradient background, soft blue and green tones, professional financial aesthetic, subtle geometric patterns"
           width := 1080, height := 1920 },
         { name := "bg_growth"
           prompt := "Abstract upward trending graph background, green glow, wealth and prosperity feeling, clean minimal design"
           width := 1080, height := 1920 },
         { name := "bg_warning"
           prompt := "Subtle red gradient background, warning atmosphere, credit card silhouette faded in background, cautionary mood"
           width := 1080, height := 1920 },
         { name := "bg_success"
           prompt := "Triumphant golden hour gradient background, warm orange and yellow tones, achievement and success feeling"
           width := 1080, height := 1920 }]
      characters :=
        [{ name := "character_friendly"
           prompt := "Friendly professional cartoon character, business casual attire, welcoming smile, approachable pose, clean modern style"
           width := 512, height := 768, remove_background := true },
         { name := "character_explaining"
           prompt := "Professional cartoon character pointing and explaining, hand gesture toward side, teaching pose, confident expression"
           width := 512, height := 768, remove_background := true }]
      props :=
        [{ name := "pie_chart"
           prompt := "Clean 3D pie chart with three sections in blue, green, and orange, modern infographic style, transparent background"
           width := 400, height := 400, remove_background := true },
         { name := "money_stack"
           prompt := "Stack of dollar bills with coins, clean illustration style, growth arrow, transparent background"
           width := 300, height := 300, remove_background := true }] })]

/-- The `STYLES` table (generate_assets.py lines 182-188). -/
def STYLES : List (String × String) :=
  [("cartoon", ", cartoon style, 2D animated, clean lines, vibrant colors, Pixar-like quality"),
   ("anime", ", anime style, Japanese animation, expressive, detailed shading"),
   ("realistic", ", photorealistic, high detail, cinematic lighting, 8K quality"),
   ("minimal", ", minimalist design, flat colors, clean geometric shapes, modern aesthetic"),
   ("retro", ", retro 80s style, neon colors, synthwave aesthetic, VHS texture")]

/-- The manifest document `generate_theme_assets` writes (generate_assets.py
lines 459-472). -/
structure AssetManifest where
  theme : String
  style : String
  description : String
  backgrounds : List String
  characters : List String
  props : List String
deriving DecidableEq, Repr

/-- File-system effects of one `generate_theme_assets` call. -/
structure AssetGenEffects where
  dirsCreated : List String
  filesWritten : List String
  manifest : Option AssetManifest
deriving DecidableEq, Repr

/-- `generate_theme_assets` (generate_assets.py lines 375-475) reduced to
its file-system effects.  The unknown-theme branch (lines 383-386) prints
and returns before the output directories are created, before any generate
call runs, and before the manifest is written; the known-theme branch
creates the three category directories, writes one png per configured
asset, and writes `manifest.json`.  The remote image calls themselves are
not modelled beyond the file each one writes. -/
def generate_theme_assets (theme_name style_name : String) : AssetGenEffects :=
  match THEMES.lookup theme_name with
  | none => { dirsCreated := [], filesWritten := [], manifest := none }
  | some theme =>
    let bgFiles := theme.backgrounds.map fun a => "backgrounds/" ++ a.name ++ ".png"
    let charFiles := theme.characters.map fun a => "characters/" ++ a.name ++ ".png"
    let propFiles := theme.props.map fun a => "props/" ++ a.name ++ ".png"
    { dirsCreated := ["backgrounds", "characters", "props"]
      filesWritten := bgFiles ++ charFiles ++ propFiles ++ ["manifest.json"]
      manifest := some { theme := theme_name
                         style := style_name
                         description := theme.description
                         backgrounds := bgFiles
                         characters := charFiles
                         props := propFiles } }

/-- C10: a `generate_theme_assets` call naming a theme absent from the
theme table returns normally with no effect at all — no directory is
created, no asset file is written, and no manifest is produced. -/
theorem c10_unknown_theme_no_effects (theme_name style_name : String)
    (habsent : THEMES.lookup theme_name = none) :
    generate_theme_assets theme_name style_name =
      { dirsCreated := [], filesWritten := [], manifest := none } := by
  simp [generate_theme_assets, habsent]

/-- C10 witness: the theme name `"space-facts"` is not in the table, and
the call for it has no effects. -/
theorem c10_unknown_theme_no_effects_witness :
    THEMES.lookup "space-facts" = none ∧
    generate_theme_assets "space-facts" "cartoon" =
      { dirsCreated := [], filesWritten := [], manifest := none } :=
  ⟨by decide, c10_unknown_theme_no_effects "space-facts" "cartoon" (by decide)⟩

/-! ## Python fallback frame renderer (orchestrate.py lines 136-253) -/

/-- One entry of the hardcoded scene table in
`HybridPipeline._render_frames_python` (orchestrate.py lines 183-191).  The
dict key `"end"` is rendered as `stop` because `end` is reserved in
Lean. -/
structure RenderScene where
  start : ℚ
  stop : ℚ
  text : String
  bg_idx : Nat
deriving DecidableEq, Repr

/-- The loop test `scene["start"] <= time < scene["end"]`
(orchestrate.py line 206). -/
def sceneMatches (s : RenderScene) (t : ℚ) : Bool :=
  decide (s.start ≤ t) && decide (t < s.stop)

/-- Per-frame scene lookup (orchestrate.py lines 203-208): start from
`scenes[0]`, replace it with the first scene whose half-open interval
contains `t` and break; when nothing matches, `scenes[0]` is kept.  The
source would raise `IndexError` on an empty list (`scenes[0]`); that case
is `none`. -/
def currentScene : List RenderScene → ℚ → Option RenderScene
  | [], _ => none
  | s0 :: rest, t =>
    some (((s0 :: rest).find? fun s => sceneMatches s t).getD s0)

/-- Video settings of the fallback renderer (orchestrate.py lines 150-153):
`fps = 30`. -/
def videoFps : Nat := 30

/-- `duration = 75` seconds (orchestrate.py line 152). -/
def videoDuration : Nat := 75

/-- `total_frames = fps * duration` (orchestrate.py line 153). -/
def totalFrames : Nat := videoFps * videoDuration

/-- The hardcoded scene table (orchestrate.py lines 183-191); the `bg_idx`
entries read `len(backgrounds)` after the gradient fallback has run, passed
here as `nbackgrounds`. -/
def hybridScenes (nbackgrounds : Nat) : List RenderScene :=
  [{ start := 0, stop := 3, text := "UNO NO MERCY", bg_idx := 0 },
   { start := 3, stop := 15, text := "168 CARDS\n6 PLAYERS\n25 = ELIMINATED",
     bg_idx := 0 },
   { start := 15, stop := 30, text := "+2  +4  +10\nSTACK THEM!",
     bg_idx := if 1 < nbackgrounds then 1 else 0 },
   { start := 30, stop := 45, text := "PLOT TWIST\n+4 HAS A COLOR!",
     bg_idx := if 1 < nbackgrounds then 1 else 0 },
   { start := 45, stop := 60, text := "7 = SWAP\n0 = PASS ALL\nSKIP EVERYONE",
     bg_idx := if 2 < nbackgrounds then 2 else 0 },
   { start := 60, stop := 70, text := "DRAW UNTIL\nYOU CAN PLAY",
     bg_idx := if 1 < nbackgrounds then 1 else 0 },
   { start := 70, stop := 75, text := "Who wants to play?",
     bg_idx := if 3 < nbackgrounds then 3 else 0 }]

/-- A background image as the renderer distinguishes them: either the idx-th
file loaded from the manifest or the generated fallback gradient. -/
inductive BgImage where
  | asset (idx : Nat)
  | gradient
deriving DecidableEq, Repr

/-- RGB value the fallback gradient assigns to row `y` of a `height`-pixel
frame (orchestrate.py lines 165-171): a pure function of the row, so the
fallback background is deterministic.  Python truncates
`int(20 + (y/height)*20)` etc.; at these magnitudes that agrees with `Nat`
division. -/
def gradientPixel (height y : Nat) : Nat × Nat × Nat :=
  (20 + y * 20 / height, 15 + y * 15 / height, 30 + y * 30 / height)

/-- The gradient fallback (orchestrate.py lines 163-172): an empty
loaded-background list is replaced by the generated gradient. -/
def effectiveBackgrounds (loaded : List BgImage) : List BgImage :=
  if loaded.isEmpty then [.gradient] else loaded

/-- Background chosen for a frame (orchestrate.py lines 211-212): the
scene's `bg_idx` reduced modulo the number of backgrounds indexes into the
effective background list. -/
def frameBackground (loaded : List BgImage) (idx : Nat) : Option BgImage :=
  (effectiveBackgrounds loaded).get?
    (idx % (effectiveBackgrounds loaded).length)

/-- Scene and background resolution for frame `f` in the fallback renderer
(orchestrate.py lines 200-212): `t = f / fps`, the scene via
`currentScene` over the hardcoded table, the background via `bg_idx` modulo
the background count.  `none` models an uncaught exception. -/
def renderFrameBackground (loaded : List BgImage) (f : Nat) : Option BgImage :=
  (currentScene (hybridScenes (effectiveBackgrounds loaded).length)
      ((f : ℚ) / (videoFps : ℚ))).bind
    fun s => frameBackground loaded s.bg_idx

/-- Character overlay selection (orchestrate.py lines 232-234): when the
character list is nonempty, index
`min(frame_num // (total_frames // k), k - 1)` for more than one character
and `0` for a single one; an empty character list skips the overlay
entirely (`if characters:`).  Python would raise `ZeroDivisionError` when
`k` exceeds `total_frames`; the executed configuration
(`total_frames = 2250`, at most 4 characters) never does. -/
def charIndex (total_frames k f : Nat) : Nat :=
  min (if 1 < k then f / (total_frames / k) else 0) (k - 1)

/-- The overlay decision plus the selected index: `none` when no character
assets exist. -/
def charOverlay (total_frames k f : Nat) : Option Nat :=
  if k = 0 then none else some (charIndex total_frames k f)

/-- The claim's selection rule, written from the spec's words for
comparison with `charIndex` (it has no counterpart in the source):
character `i` is active while `f` lies in the i-th of `k` equal partitions
of `[0, total_frames)`, i.e. `i = ⌊f * k / total_frames⌋`. -/
def equalPartitionIndex (total_frames k f : Nat) : Nat :=
  f * k / total_frames

/-- C6 counterexample: at the renderer's 2250 frames with the 4 characters
of the uno-no-mercy theme, frame 562 lies in the 0-th of 4 equal partitions
of `[0, 2250)` (`⌊562·4/2250⌋ = 0`), but the code overlays character 1
(`min(562 // 562, 3) = 1`), so the overlaid character is not the one given
by the equal-partition rule. -/
theorem c6_unequal_partition_counterexample :
    charOverlay totalFrames 4 562 = some 1 ∧
    equalPartitionIndex totalFrames 4 562 = 0 := by
  constructor <;> decide

/-- C6 amended: an empty character set receives no overlay; a nonempty set
of size `k` receives character `min(f // (total_frames // k), k - 1)`, and
that matches the i-th-of-k equal-partition rule exactly when `k` divides
`total_frames` (the partitions are then genuinely equal). -/
theorem c6_character_partition :
    (∀ total_frames f, charOverlay total_frames 0 f = none) ∧
    (∀ total_frames k f, 0 < k →
      charOverlay total_frames k f = some (charIndex total_frames k f)) ∧
    (∀ total_frames k f, 0 < k → k ∣ total_frames → f < total_frames →
      charIndex total_frames k f = equalPartitionIndex total_frames k f) := by
  refine ⟨fun total_frames f => rfl, fun total_frames k f hk => ?_, ?_⟩
  · simp [charOverlay, Nat.pos_iff_ne_zero.mp hk]
  · intro total_frames k f hk hdvd hf
    obtain ⟨q, hq⟩ := hdvd
    subst hq
    have hq0 : 0 < q := by
      rcases Nat.eq_zero_or_pos q with h | h
      · subst h; simp at hf
      · exact h
    rcases Nat.lt_or_ge 1 k with hk1 | hk1
    · have hdivq : k * q / k = q := Nat.mul_div_cancel_left q (by omega)
      have hmul : f * k / (k * q) = f / q := by
        rw [Nat.mul_comm k q, Nat.mul_div_mul_right _ _ (by omega : 0 < k)]
      have hlt : f / q < k := Nat.div_lt_iff_lt_mul hq0 |>.mpr
        (by rw [Nat.mul_comm] at hf ⊢; exact hf)
      have : f / q ≤ k - 1 := by omega
      simp [charIndex, equalPartitionIndex, hk1, hdivq, hmul,
        Nat.min_eq_left this]
    · have hk1' : k = 1 := by omega
      subst hk1'
      simp only [Nat.one_mul] at hf
      simp [charIndex, equalPartitionIndex, Nat.div_eq_of_lt hf]

/-- C6 amended, witnessed: no overlay without characters; with the 2
financial-basics characters (2 divides 2250) frame 1200 gets character 1 by
both the code and the equal-partition rule. -/
theorem c6_character_partition_witness :
    charOverlay totalFrames 0 100 = none ∧
    charOverlay totalFrames 2 1200 = some (charIndex totalFrames 2 1200) ∧
    charIndex totalFrames 2 1200 = equalPartitionIndex totalFrames 2 1200 ∧
    charIndex totalFrames 2 1200 = 1 :=
  ⟨c6_character_partition.1 totalFrames 100,
   c6_character_partition.2.1 totalFrames 2 1200 (by decide),
   c6_character_partition.2.2 totalFrames 2 1200 (by decide) (by decide)
     (by decide),
   by decide⟩

/-- C7: with zero background assets supplied, every frame of the render
resolves its background to the deterministically generated gradient — the
fallback list is `[gradient]`, the scene lookup always yields a scene, and
`bg_idx % 1 = 0` indexes the gradient, so no frame raises. -/
theorem c7_empty_backgrounds_render_gradient (f : Nat)
    (_hf : f < totalFrames) :
    renderFrameBackground [] f = some .gradient := by
  have hlen : (effectiveBackgrounds []).length = 1 := by decide
  simp only [renderFrameBackground, hlen, currentScene, hybridScenes]
  simp [frameBackground, effectiveBackgrounds, Nat.mod_one]

/-- The scene list of the claim's own example: a 30 fps timeline with
scenes `[0,5)` (background 0) and `[5,10)` (background 1). -/
def exampleScenes : List RenderScene :=
  [{ start := 0, stop := 5, text := "first", bg_idx := 0 },
   { start := 5, stop := 10, text := "second", bg_idx := 1 }]

/-- When no scene earlier in the list matches, `find?` walks past it. -/
theorem find_first_matching (t : ℚ) :
    ∀ (scenes : List RenderScene),
      scenes.Pairwise (fun a b => a.stop ≤ b.start) →
      ∀ s ∈ scenes, s.start ≤ t → t < s.stop →
        scenes.find? (fun x => sceneMatches x t) = some s := by
  intro scenes
  induction scenes with
  | nil => intro _ s hs; cases hs
  | cons a rest ih =>
    intro hp s hs h1 h2
    rcases List.mem_cons.mp hs with rfl | hs'
    · have : sceneMatches s t = true := by
        simp [sceneMatches, h1, h2]
      simp [List.find?, this]
    · have hale : a.stop ≤ s.start := (List.pairwise_cons.mp hp).1 s hs'
      have hnomatch : sceneMatches a t = false := by
        simp only [sceneMatches, Bool.and_eq_false_iff, decide_eq_false_iff_not]
        right
        intro hlt
        exact absurd (lt_of_lt_of_le hlt (le_trans hale h1)) (lt_irrefl t)
      simp only [List.find?, hnomatch]
      exact ih (List.pairwise_cons.mp hp).2 s hs' h1 h2

/-- C4 counterexample: with the claim's example scenes `[0,5)` and `[5,10)`
at 30 fps, frame 299 (t ≈ 9.967 s) selects the second scene, but frame 300
(t = 10 s, contained in no scene's half-open interval) selects the *first*
scene of the list — the loop's default is `scenes[0]`, not the previous
frame's scene, so the frame does not retain the second scene as the claim
requires. -/
theorem c4_fallback_counterexample :
    currentScene exampleScenes ((299 : ℚ) / 30) =
      some { start := 5, stop := 10, text := "second", bg_idx := 1 } ∧
    currentScene exampleScenes ((300 : ℚ) / 30) =
      some { start := 0, stop := 5, text := "first", bg_idx := 0 } := by
  constructor <;> norm_num [currentScene, exampleScenes, sceneMatches,
    List.find?]

/-- C4 amended: for every nonempty scene list, (a) when some scene of a
pairwise non-overlapping list contains `t` in its half-open interval
`[start, stop)`, the loop selects exactly that scene — so a frame landing
on a boundary belongs to the later scene; (b) when no scene's interval
contains `t`, the loop falls back to the *first* scene of the list
(`scenes[0]`), not to the previous frame's scene. -/
theorem c4_scene_selection (scenes : List RenderScene) (t : ℚ)
    (s0 : RenderScene) (rest : List RenderScene) (hne : scenes = s0 :: rest) :
    (scenes.Pairwise (fun a b => a.stop ≤ b.start) →
      ∀ s ∈ scenes, s.start ≤ t → t < s.stop →
        currentScene scenes t = some s) ∧
    ((∀ s ∈ scenes, sceneMatches s t = false) →
      currentScene scenes t = some s0) := by
  subst hne
  constructor
  · intro hp s hs h1 h2
    simp only [currentScene]
    rw [find_first_matching t _ hp s hs h1 h2]
    rfl
  · intro hnone
    have hfind : (s0 :: rest).find? (fun x => sceneMatches x t) = none := by
      rw [List.find?_eq_none]
      intro x hx
      simp [hnone x hx]
    simp only [currentScene, hfind, Option.getD_none]

/-- C4 amended, witnessed on the example scenes: frame 149 (t ≈ 4.967 s)
selects the first scene, the boundary frame 150 (t = 5 s) belongs to the
later scene, and the out-of-range frame 600 (t = 20 s) falls back to the
first scene in the list. -/
theorem c4_scene_selection_witness :
    currentScene exampleScenes ((149 : ℚ) / 30) =
      some { start := 0, stop := 5, text := "first", bg_idx := 0 } ∧
    currentScene exampleScenes ((150 : ℚ) / 30) =
      some { start := 5, stop := 10, text := "second", bg_idx := 1 } ∧
    currentScene exampleScenes ((600 : ℚ) / 30) =
      some { start := 0, stop := 5, text := "first", bg_idx := 0 } := by
  refine ⟨(c4_scene_selection exampleScenes ((149 : ℚ) / 30) _ _ rfl).1
            (by decide) _ (by decide) (by norm_num) (by norm_num),
          (c4_scene_selection exampleScenes ((150 : ℚ) / 30) _ _ rfl).1
            (by decide) _ (by decide) (by norm_num) (by norm_num),
          (c4_scene_selection exampleScenes ((600 : ℚ) / 30) _ _ rfl).2 ?_⟩
  norm_num [exampleScenes, sceneMatches]

/-- C7 witness: frame 0 of the zero-background render uses the gradient. -/
theorem c7_empty_backgrounds_render_gradient_witness :
    0 < totalFrames ∧ renderFrameBackground [] 0 = some .gradient :=
  ⟨by decide, c7_empty_backgrounds_render_gradient 0 (by decide)⟩

/-! ## Script data model and the main pipeline (pipeline.py lines 31-65,
82-160, 386-529) -/

/-- `Scene` (pipeline.py lines 31-40). -/
structure Scene where
  index : Nat
  start_time : ℚ
  end_time : ℚ
  narration : String
  visual_prompt : String
  text_overlay : Option String
deriving DecidableEq, Repr

/-- `VideoScript` (pipeline.py lines 43-51). -/
structure VideoScript where
  title : String
  topic : String
  style : String
  total_duration : ℚ
  scenes : List Scene
deriving DecidableEq, Repr

/-- `VideoScript.to_narration` (pipeline.py lines 53-55):
`" ".join(scene.narration for scene in self.scenes)`. -/
def VideoScript.to_narration (s : VideoScript) : String :=
  String.intercalate " " (s.scenes.map fun sc => sc.narration)

/-- One scene object of the JSON document the model returns, as
`ClaudeScriptProvider.generate_script` reads it. -/
structure RawScene where
  start_time : ℚ
  end_time : ℚ
  narration : String
  visual_prompt : String
  text_overlay : Option String
deriving DecidableEq, Repr

/-- The parsed JSON document: a title and a scene array. -/
structure RawScriptData where
  title : String
  scenes : List RawScene
deriving DecidableEq, Repr

/-- Pure tail of `ClaudeScriptProvider.generate_script` (pipeline.py lines
140-160): enumerate the parsed scene objects into `Scene`s and wrap them in
a `VideoScript`.  Every field is copied as-is: no interval, ordering or
duration check exists anywhere on this path. -/
def ClaudeScriptProvider.parseScript (topic style : String) (duration : ℚ)
    (data : RawScriptData) : VideoScript :=
  { title := data.title
    topic := topic
    style := style
    total_duration := duration
    scenes := data.scenes.enum.map fun p =>
      { index := p.1
        start_time := p.2.start_time
        end_time := p.2.end_time
        narration := p.2.narration
        visual_prompt := p.2.visual_prompt
        text_overlay := p.2.text_overlay } }

/-- The files a `VideoPipeline.generate` run touches inside its output
directory: the dumped script JSON, `voiceover.mp3`, the per-scene
`clip_{i:02d}.mp4` files, the compiler's `concat.txt` and
`temp_concat.mp4`, and the final `video_<timestamp>.mp4`. -/
inductive Artifact where
  | scriptJson
  | voiceover
  | clip (i : Nat)
  | concatFile
  | tempConcat
  | finalVideo
deriving DecidableEq, Repr

/-- Directory contents as a characteristic function. -/
def FileSet := Artifact → Bool

/-- Creating (or overwriting) a file. -/
def FileSet.write (fs : FileSet) (a : Artifact) : FileSet :=
  fun x => if x = a then true else fs x

/-- `Path.unlink`. -/
def FileSet.unlink (fs : FileSet) (a : Artifact) : FileSet :=
  fun x => if x = a then false else fs x

/-- A fresh run directory. -/
def FileSet.empty : FileSet := fun _ => false

/-- The per-scene clip writes `clip_0 .. clip_{n-1}` of pipeline.py lines
504-516 (each `generate_clip` call persists its clip before the next scene
starts). -/
def writeClips (fs : FileSet) : Nat → FileSet
  | 0 => fs
  | n + 1 => (writeClips fs n).write (.clip n)

/-- The cleanup loop `for clip in clips: clip.path.unlink()` (pipeline.py
lines 524-525). -/
def unlinkClips (fs : FileSet) : Nat → FileSet
  | 0 => fs
  | n + 1 => (unlinkClips fs n).unlink (.clip n)

theorem FileSet.write_apply (fs : FileSet) (a x : Artifact) :
    fs.write a x = (if x = a then true else fs x) := rfl

theorem FileSet.unlink_apply (fs : FileSet) (a x : Artifact) :
    fs.unlink a x = (if x = a then false else fs x) := rfl

/-- A clip index below the bound is written. -/
theorem writeClips_clip_lt (fs : FileSet) (n i : Nat) (h : i < n) :
    writeClips fs n (.clip i) = true := by
  induction n with
  | zero => omega
  | succ m ih =>
    by_cases hi : i = m
    · subst hi; simp [writeClips, FileSet.write]
    · have : i < m := by omega
      simp [writeClips, FileSet.write_apply, Artifact.clip.injEq, hi, ih this]

/-- Artifacts that are no written clip pass through `writeClips`. -/
theorem writeClips_other (fs : FileSet) (n : Nat) (x : Artifact)
    (h : ∀ i, i < n → x ≠ .clip i) : writeClips fs n x = fs x := by
  induction n with
  | zero => rfl
  | succ m ih =>
    have hx : x ≠ Artifact.clip m := h m (by omega)
    simp [writeClips, FileSet.write_apply, hx,
      ih fun i hi => h i (by omega)]

/-- A clip index below the bound is unlinked. -/
theorem unlinkClips_clip_lt (fs : FileSet) (n i : Nat) (h : i < n) :
    unlinkClips fs n (.clip i) = false := by
  induction n with
  | zero => omega
  | succ m ih =>
    by_cases hi : i = m
    · subst hi; simp [unlinkClips, FileSet.unlink]
    · have : i < m := by omega
      simp [unlinkClips, FileSet.unlink_apply, Artifact.clip.injEq, hi,
        ih this]

/-- Artifacts that are no unlinked clip pass through `unlinkClips`. -/
theorem unlinkClips_other (fs : FileSet) (n : Nat) (x : Artifact)
    (h : ∀ i, i < n → x ≠ .clip i) : unlinkClips fs n x = fs x := by
  induction n with
  | zero => rfl
  | succ m ih =>
    have hx : x ≠ Artifact.clip m := h m (by omega)
    simp [unlinkClips, FileSet.unlink_apply, hx,
      ih fun i hi => h i (by omega)]

/-- `VideoCompiler.compile` (pipeline.py lines 393-436) as a file-system
transformer.  `concatOk` / `muxOk` are the exit statuses of the two ffmpeg
invocations (`check=True`: a nonzero status raises `CalledProcessError`,
which propagates with no cleanup, returning `none`).  Only on success are
the concat list and the temporary concatenated video unlinked and the final
output path returned. -/
def VideoCompiler.compile (concatOk muxOk : Bool) (fs : FileSet) :
    FileSet × Option Artifact :=
  let fs1 := fs.write .concatFile
  if concatOk then
    let fs2 := fs1.write .tempConcat
    if muxOk then
      let fs3 := fs2.write .finalVideo
      ((fs3.unlink .concatFile).unlink .tempConcat, some .finalVideo)
    else (fs2, none)
  else (fs1, none)

/-- Observable trace of one `VideoPipeline.generate` run: the directory
contents when it returned (or when the exception escaped), the text passed
to speech synthesis, the (prompt, duration) of every remote visual call, and
the returned final path (`none` when assembly raised). -/
structure PipelineRun where
  files : FileSet
  ttsText : Option String
  clipCalls : List (String × ℚ)
  result : Option Artifact

/-- `VideoPipeline.generate` (pipeline.py lines 460-529) over an initially
empty output directory: dump the script JSON, synthesize the voiceover from
`to_narration`, generate one clip per scene in order (recording each remote
visual call's prompt and `end_time - start_time` duration), compile, and —
only after a successful compile — unlink the clips and then the voiceover.
A compile failure propagates immediately, leaving the files as they stood;
the script JSON is never unlinked anywhere. -/
def VideoPipeline.generate (script : VideoScript) (concatOk muxOk : Bool) :
    PipelineRun :=
  let n := script.scenes.length
  let fs1 := FileSet.empty.write .scriptJson
  let narration := script.to_narration
  let fs2 := fs1.write .voiceover
  let calls := script.scenes.map fun s =>
    (s.visual_prompt, s.end_time - s.start_time)
  let fs3 := writeClips fs2 n
  match VideoCompiler.compile concatOk muxOk fs3 with
  | (fsFail, none) =>
    { files := fsFail, ttsText := some narration, clipCalls := calls
      result := none }
  | (fsOk, some finalPath) =>
    { files := (unlinkClips fsOk n).unlink .voiceover
      ttsText := some narration, clipCalls := calls
      result := some finalPath }

/-! ## C3: artifact lifecycle -/

/-- A one-scene script used to witness pipeline runs on concrete input. -/
def demoScript : VideoScript :=
  { title := "Cats"
    topic := "cats"
    style := "dramatic"
    total_duration := 5
    scenes := [{ index := 0, start_time := 0, end_time := 5,
                 narration := "Cats are great.", visual_prompt := "a cat",
                 text_overlay := none }] }

/-- C3 counterexample: on a successful one-scene run the claim requires
every intermediate artifact — explicitly including the script JSON — to
have been deleted, but the returned run still contains the script JSON:
`VideoPipeline.generate` unlinks the clips and the voiceover after
assembly, yet no statement anywhere unlinks the dumped script. -/
theorem c3_script_json_retained_counterexample :
    (VideoPipeline.generate demoScript true true).result =
      some .finalVideo ∧
    (VideoPipeline.generate demoScript true true).files .scriptJson =
      true := by
  constructor <;> rfl

/-- C3 amended: after assembly succeeds the orchestrator deletes every
per-scene clip and the voice track — but retains the script JSON — and
exactly one final artifact exists beside it; if assembly fails at either
ffmpeg stage, nothing has been deleted: the script JSON, the voice track
and every per-scene clip are all still present and no final artifact
exists. -/
theorem c3_cleanup_after_success (script : VideoScript) :
    ((VideoPipeline.generate script true true).result = some .finalVideo ∧
     (VideoPipeline.generate script true true).files .scriptJson = true ∧
     (VideoPipeline.generate script true true).files .voiceover = false ∧
     (∀ i, i < script.scenes.length →
       (VideoPipeline.generate script true true).files (.clip i) = false) ∧
     (∀ a, (VideoPipeline.generate script true true).files a = true →
       a = .scriptJson ∨ a = .finalVideo)) ∧
    (∀ concatOk muxOk, (concatOk && muxOk) = false →
      (VideoPipeline.generate script concatOk muxOk).result = none ∧
      (VideoPipeline.generate script concatOk muxOk).files .scriptJson =
        true ∧
      (VideoPipeline.generate script concatOk muxOk).files .voiceover =
        true ∧
      (∀ i, i < script.scenes.length →
        (VideoPipeline.generate script concatOk muxOk).files (.clip i) =
          true) ∧
      (VideoPipeline.generate script concatOk muxOk).files .finalVideo =
        false) := by
  constructor
  · refine ⟨rfl, ?_, ?_, ?_, ?_⟩
    · simp [VideoPipeline.generate, VideoCompiler.compile,
        FileSet.unlink_apply, FileSet.write_apply, unlinkClips_other,
        writeClips_other, FileSet.empty]
    · simp [VideoPipeline.generate, VideoCompiler.compile,
        FileSet.unlink_apply]
    · intro i hi
      simp [VideoPipeline.generate, VideoCompiler.compile,
        FileSet.unlink_apply, unlinkClips_clip_lt _ _ _ hi]
    · intro a ha
      cases a with
      | scriptJson => exact Or.inl rfl
      | finalVideo => exact Or.inr rfl
      | voiceover =>
        simp [VideoPipeline.generate, VideoCompiler.compile,
          FileSet.unlink_apply] at ha
      | clip i =>
        by_cases hi : i < script.scenes.length
        · simp [VideoPipeline.generate, VideoCompiler.compile,
            FileSet.unlink_apply, unlinkClips_clip_lt _ _ _ hi] at ha
        · have hne : ∀ j, j < script.scenes.length →
              Artifact.clip i ≠ Artifact.clip j := by
            intro j hj h
            cases h
            exact hi hj
          simp [VideoPipeline.generate, VideoCompiler.compile,
            FileSet.unlink_apply, FileSet.write_apply,
            unlinkClips_other _ _ _ hne, writeClips_other _ _ _ hne,
            FileSet.empty] at ha
      | concatFile =>
        simp [VideoPipeline.generate, VideoCompiler.compile,
          FileSet.unlink_apply, unlinkClips_other] at ha
      | tempConcat =>
        simp [VideoPipeline.generate, VideoCompiler.compile,
          FileSet.unlink_apply, unlinkClips_other] at ha
  · intro concatOk muxOk hfail
    have hcases : concatOk = false ∨ (concatOk = true ∧ muxOk = false) := by
      cases concatOk <;> cases muxOk <;> simp_all
    rcases hcases with h | ⟨h1, h2⟩
    · subst h
      refine ⟨rfl, ?_, ?_, ?_, ?_⟩ <;>
        first
          | (intro i hi
             simp [VideoPipeline.generate, VideoCompiler.compile,
               FileSet.write_apply, writeClips_clip_lt _ _ _ hi])
          | simp [VideoPipeline.generate, VideoCompiler.compile,
              FileSet.write_apply, writeClips_other, FileSet.empty]
    · subst h1; subst h2
      refine ⟨rfl, ?_, ?_, ?_, ?_⟩ <;>
        first
          | (intro i hi
             simp [VideoPipeline.generate, VideoCompiler.compile,
               FileSet.write_apply, writeClips_clip_lt _ _ _ hi])
          | simp [VideoPipeline.generate, VideoCompiler.compile,
              FileSet.write_apply, writeClips_other, FileSet.empty]

/-- C3 amended, witnessed on the one-scene demo script: the successful run
keeps the script JSON and drops the voiceover and the clip; the run whose
concat stage fails returns no final artifact and still holds the voiceover
and the clip. -/
theorem c3_cleanup_after_success_witness :
    (VideoPipeline.generate demoScript true true).files .voiceover = false ∧
    (VideoPipeline.generate demoScript true true).files (.clip 0) = false ∧
    (VideoPipeline.generate demoScript false true).result = none ∧
    (VideoPipeline.generate demoScript false true).files .voiceover = true ∧
    (VideoPipeline.generate demoScript false true).files (.clip 0) = true :=
  ⟨(c3_cleanup_after_success demoScript).1.2.2.1,
   (c3_cleanup_after_success demoScript).1.2.2.2.1 0 (by decide),
   ((c3_cleanup_after_success demoScript).2 false true rfl).1,
   ((c3_cleanup_after_success demoScript).2 false true rfl).2.2.1,
   ((c3_cleanup_after_success demoScript).2 false true rfl).2.2.2.1 0
     (by decide)⟩

/-! ## C2: scene-list validation -/

/-- Scene-list validity as the claim states it, written from the spec's
words (section 8) for comparison: every scene's interval is nonempty, the
next scene never starts before the previous one ends, and the last scene
lands on the declared total duration within tolerance `tol`.  The source
has no counterpart to this predicate. -/
def specValidScenes (scenes : List Scene) (total_duration tol : ℚ) : Prop :=
  (∀ s ∈ scenes, s.start_time < s.end_time) ∧
  (∀ i (h1 : i < scenes.length) (h2 : i + 1 < scenes.length),
    (scenes.get ⟨i, h1⟩).end_time ≤ (scenes.get ⟨i + 1, h2⟩).start_time) ∧
  (∀ last, scenes.getLast? = some last →
    |last.end_time - total_duration| ≤ tol)

/-- A model response whose single scene has `end_time = 0 < 5 = start_time`. -/
def badRawData : RawScriptData :=
  { title := "Bad"
    scenes := [{ start_time := 5, end_time := 0, narration := "n",
                 visual_prompt := "p", text_overlay := none }] }

/-- C2 counterexample: the scene list parsed from `badRawData` violates the
claim's validity condition (its scene has `end_time <= start_time`), yet no
`ValidationError` exists anywhere: the pipeline accepts it, makes the
remote speech-synthesis call and a remote visual call for the bad scene,
and completes. -/
theorem c2_no_validation_counterexample :
    ¬ specValidScenes
        (ClaudeScriptProvider.parseScript "t" "s" 60 badRawData).scenes
        60 (1 / 2) ∧
    (VideoPipeline.generate
        (ClaudeScriptProvider.parseScript "t" "s" 60 badRawData) true
        true).ttsText.isSome = true ∧
    (VideoPipeline.generate
        (ClaudeScriptProvider.parseScript "t" "s" 60 badRawData) true
        true).clipCalls = [("p", 0 - 5)] ∧
    (VideoPipeline.generate
        (ClaudeScriptProvider.parseScript "t" "s" 60 badRawData) true
        true).result = some .finalVideo := by
  refine ⟨?_, rfl, rfl, rfl⟩
  intro h
  have hmem : (⟨0, 5, 0, "n", "p", none⟩ : Scene) ∈
      (ClaudeScriptProvider.parseScript "t" "s" 60 badRawData).scenes := by
    simp [ClaudeScriptProvider.parseScript, badRawData, List.enum]
  have := h.1 _ hmem
  norm_num at this

/-- C2 amended: the pipeline performs no scene-interval validation at all.
Whatever scene list the model response parses to — overlapping,
non-monotonic, or mismatched against the declared duration — the run
proceeds to the speech-synthesis call and issues exactly one remote visual
call per scene; no `ValidationError` path exists in the source. -/
theorem c2_every_scene_list_accepted (topic style : String) (duration : ℚ)
    (data : RawScriptData) (concatOk muxOk : Bool) :
    (VideoPipeline.generate
        (ClaudeScriptProvider.parseScript topic style duration data)
        concatOk muxOk).ttsText =
      some (ClaudeScriptProvider.parseScript topic style duration
        data).to_narration ∧
    (VideoPipeline.generate
        (ClaudeScriptProvider.parseScript topic style duration data)
        concatOk muxOk).clipCalls.length = data.scenes.length := by
  cases concatOk <;> cases muxOk <;>
    simp [VideoPipeline.generate, VideoCompiler.compile,
      ClaudeScriptProvider.parseScript]

/-! ## C8: narration concatenation -/

/-- Concatenation of the scene narrations in index order, one scene at a
time with a single separating space between adjacent scenes — the claim's
reading of "concatenating the scene narrations in index order" for the
text handed to speech synthesis (`" ".join`). -/
def narrationConcat : List Scene → String
  | [] => ""
  | [s] => s.narration
  | s :: r :: rest => s.narration ++ " " ++ narrationConcat (r :: rest)

theorem intercalate_go_append (l : List String) :
    ∀ x y : String,
      String.intercalate.go (x ++ y) " " l =
        x ++ String.intercalate.go y " " l := by
  induction l with
  | nil => intro x y; rfl
  | cons a as ih =>
    intro x y
    show String.intercalate.go (x ++ y ++ " " ++ a) " " as =
      x ++ String.intercalate.go (y ++ " " ++ a) " " as
    have : x ++ y ++ " " ++ a = x ++ (y ++ " " ++ a) := by
      simp [String.append_assoc]
    rw [this, ih]

/-- `" ".join` of the narrations is exactly the scene-by-scene
concatenation in index order. -/
theorem intercalate_eq_narrationConcat :
    ∀ scenes : List Scene,
      String.intercalate " " (scenes.map fun sc => sc.narration) =
        narrationConcat scenes
  | [] => rfl
  | [_] => rfl
  | s :: r :: rest => by
    have ih := intercalate_eq_narrationConcat (r :: rest)
    show String.intercalate.go s.narration " "
        (r.narration :: rest.map fun sc => sc.narration) =
      s.narration ++ " " ++ narrationConcat (r :: rest)
    show String.intercalate.go (s.narration ++ " " ++ r.narration) " "
        (rest.map fun sc => sc.narration) = _
    have hsplit : s.narration ++ " " ++ r.narration =
        (s.narration ++ " ") ++ r.narration := by
      simp [String.append_assoc]
    rw [hsplit, intercalate_go_append]
    show (s.narration ++ " ") ++
        String.intercalate " " ((r :: rest).map fun sc => sc.narration) = _
    rw [ih]

/-- C8: the full narration text the orchestrator passes to speech synthesis
(pipeline.py lines 496-500 via `to_narration`) is exactly the scene
narrations concatenated in index order — every scene contributes exactly
once, in order, and nothing else is included. -/
theorem c8_narration_reaches_tts (script : VideoScript)
    (concatOk muxOk : Bool) :
    (VideoPipeline.generate script concatOk muxOk).ttsText =
      some (narrationConcat script.scenes) := by
  have h := intercalate_eq_narrationConcat script.scenes
  cases concatOk <;> cases muxOk <;>
    simp [VideoPipeline.generate, VideoCompiler.compile,
      VideoScript.to_narration, h]

end TiktokPipeline
